import Mathlib

/-!
Verification of the ERA Decision Arbitration Layer core pipeline.

This file gives a shallow embedding of the decision pipeline of the
repository (`src/orchestrator.py`, `src/stability.py`, `src/early_stopping.py`,
`src/rebuttal.py`, `src/consensus.py`, `src/solver_pool.py`, `src/schemas.py`)
and proves properties of it.

Modelling conventions:
* Remote model calls (`provider.generate` plus JSON parsing/validation) are
  modelled as oracle functions supplied as parameters; a failing or invalid
  call is `none`.
* Python floats are modelled as exact rationals (for counting-based rates)
  and exact reals (for the Wilson score interval, which uses `sqrt`).
* Python exceptions that escape a component are modelled with `Except`;
  a `ZeroDivisionError` is `PyErr.zeroDivision`.
* Wall-clock timestamps and log output are omitted; fields of result
  dictionaries that only echo configuration are omitted where no claim
  mentions them.  Boolean trace fields (`rebuttal_invoked`,
  `consensus_invoked`) record which branches of the orchestrator ran.
-/

/-- One worker's structured answer (dataclass `SolverOutput` in `models.py`);
the wall-clock `timestamp` metadata field is omitted. -/
structure SolverOutput where
  model_id : String
  task_id : String
  final_answer : String
  confidence : ℚ
  assumptions : List String
  risks : List String
  evidence : List String
  self_checks : List String
  latency_ms : Int
deriving DecidableEq, Repr

/-- One entry of the arbiter's ranking (dataclass `ArbiterRanking`). -/
structure ArbiterRanking where
  model_id : String
  score : ℚ
deriving DecidableEq, Repr

/-- The arbiter's structured output (dataclass `ArbiterOutput`);
timestamp omitted. -/
structure ArbiterOutput where
  task_id : String
  selected_model_id : String
  ranking : List ArbiterRanking
  final_answer : String
  arbiter_notes : List String
  decision_mode : String
  used_candidates : List String
deriving DecidableEq, Repr

/-- Summary of one run kept by `run_multi` in `results_per_run`
(orchestrator.py lines 175-179). -/
structure RunSummary where
  decision_mode : String
  used_candidates : List String
  final_answer : String
deriving DecidableEq, Repr

/-- Python exceptions that escape the modelled components. -/
inductive PyErr where
  | zeroDivision
  | indexError
deriving DecidableEq, Repr

/-- Disagreement rate (orchestrator.py lines 56-57):
`len(set(c.final_answer for c in candidates)) / len(candidates)`.
`List.dedup` has the same length as Python's `set` of the answers.
Rational division by zero is junk (`0`); `run_single` reaches this
computation only behind its explicit `zeroDivision` guard, mirroring
the fact that Python raises there on an empty candidate list. -/
def disagreementRate (candidates : List SolverOutput) : ℚ :=
  ((candidates.map (fun c => c.final_answer)).dedup.length : ℚ) / (candidates.length : ℚ)

/-- Specification of one solver roster entry (`SolverSpec` in solver_pool.py). -/
structure SolverSpec where
  model_id : String
  temperature : ℚ
deriving DecidableEq, Repr

/-- `SolverPool.run_parallel` (solver_pool.py lines 64-123): every roster
entry is dispatched; a worker call that fails (`none`) is logged and its
candidate silently dropped; the successful candidates are collected.
Completion order is nondeterministic in the source ("no ordering
guarantee"); the model collects in roster order. -/
def SolverPool.run_parallel (call : SolverSpec → Option SolverOutput)
    (solvers : List SolverSpec) : List SolverOutput :=
  solvers.filterMap call

/-- The payload of a successfully parsed and schema-validated rebuttal
response for one worker (the fields read from `parsed` in rebuttal.py
lines 64-74). -/
structure RebuttalFields where
  final_answer : String
  confidence : ℚ
  assumptions : List String
  risks : List String
  evidence : List String
  self_checks : List String
deriving DecidableEq, Repr

/-- `RebuttalRound.run` (rebuttal.py lines 18-79).  `reply own others`
models `provider.generate` plus `safe_parse_json` plus
`validate_solver_json` for worker `own` shown the other workers'
answers; `none` is a failed call or an invalid response, in which case
the worker's original pre-rebuttal candidate is appended unchanged. -/
def RebuttalRound.run (reply : SolverOutput → List SolverOutput → Option RebuttalFields)
    (task_id : String) (all_outputs : List SolverOutput) : List SolverOutput :=
  all_outputs.map fun own =>
    let others := all_outputs.filter fun o => o.model_id ≠ own.model_id
    match reply own others with
    | some parsed =>
        { model_id := own.model_id
          task_id := task_id
          final_answer := parsed.final_answer
          confidence := parsed.confidence
          assumptions := parsed.assumptions
          risks := parsed.risks
          evidence := parsed.evidence
          self_checks := parsed.self_checks
          latency_ms := own.latency_ms }
    | none => own

/-- The fields extracted from a parsed consensus response
(consensus.py lines 61-65). -/
structure ConsensusParsed where
  final_answer : String
  synthesis_notes : List String
deriving DecidableEq, Repr

/-- The dictionary returned by `ConsensusSynthesizer.synthesize`
(consensus.py lines 63-67). -/
structure ConsensusResult where
  final_answer : String
  synthesis_notes : List String
  sources : List String
deriving DecidableEq, Repr

/-- `ConsensusSynthesizer.synthesize` (consensus.py lines 25-70);
`reply` models the generate-and-parse step, `none` a failure that the
method re-raises.  On success the `sources` list echoes the model ids of
`top_candidates[:topk]`. -/
def ConsensusSynthesizer.synthesize
    (reply : List SolverOutput → ℕ → Option ConsensusParsed)
    (top_candidates : List SolverOutput) (topk : ℕ) : Option ConsensusResult :=
  match reply top_candidates topk with
  | some parsed =>
      some { final_answer := parsed.final_answer
             synthesis_notes := parsed.synthesis_notes
             sources := (top_candidates.take topk).map (fun c => c.model_id) }
  | none => none

/-- A JSON value, as far as the solver schema needs to inspect one. -/
inductive JVal where
  | str (s : String)
  | num (q : ℚ)
  | boolean (b : Bool)
  | null
  | arr (items : List JVal)
deriving Repr

/-- Check `{"type": "string"}`. -/
def JVal.isString : JVal → Bool
  | .str _ => true
  | _ => false

/-- Check `{"type": "number", "minimum": 0, "maximum": 1}`. -/
def JVal.isNumber01 : JVal → Bool
  | .num q => decide (0 ≤ q ∧ q ≤ 1)
  | _ => false

/-- Check `{"type": "array", "items": {"type": "string"}}`. -/
def JVal.isStringArray : JVal → Bool
  | .arr items => items.all JVal.isString
  | _ => false

/-- The `required` list of `SOLVER_SCHEMA` (schemas.py lines 6-15). -/
def solverRequired : List String :=
  ["model_id", "task_id", "final_answer", "confidence",
   "assumptions", "risks", "evidence", "self_checks"]

/-- The per-property checks of `SOLVER_SCHEMA` (schemas.py lines 17-26);
a key outside `properties` fails because of `"additionalProperties": False`. -/
def solverPropertyCheck (key : String) (v : JVal) : Bool :=
  if key = "model_id" ∨ key = "task_id" ∨ key = "final_answer" then v.isString
  else if key = "confidence" then v.isNumber01
  else if key = "assumptions" ∨ key = "risks" ∨ key = "evidence" ∨ key = "self_checks" then
    v.isStringArray
  else false

/-- `validate_solver_json` (schemas.py lines 53-57) on a JSON object given
as its field list: `jsonschema.validate` against `SOLVER_SCHEMA` succeeds
iff every `required` key is present and every present field passes its
property check (with extra fields failing via `additionalProperties`).
`true` models a silent return, `false` the raised `ValueError`. -/
def validate_solver_json (fields : List (String × JVal)) : Bool :=
  (solverRequired.all fun k => fields.any fun kv => kv.1 = k) &&
  (fields.all fun kv => solverPropertyCheck kv.1 kv.2)

/-- Build the JSON object with exactly the eight schema fields. -/
def mkSolverObj (mid tid ans : String) (conf : ℚ)
    (assumptions risks evidence self_checks : List String) : List (String × JVal) :=
  [("model_id", .str mid), ("task_id", .str tid), ("final_answer", .str ans),
   ("confidence", .num conf),
   ("assumptions", .arr (assumptions.map .str)),
   ("risks", .arr (risks.map .str)),
   ("evidence", .arr (evidence.map .str)),
   ("self_checks", .arr (self_checks.map .str))]

/-- The external calls one `run_single` cycle can make, as oracles.
`poolCandidates` is the candidate set collected by `SolverPool.run_parallel`;
`arbiter` models `Arbiter.rank` (assumed to succeed; an arbiter failure is
fatal and propagates, and no claim here concerns that path);
`rebuttalReply` and `consensusReply` are as in `RebuttalRound.run` and
`ConsensusSynthesizer.synthesize`, with `none` a failed call. -/
structure Oracles where
  poolCandidates : List SolverOutput
  arbiter : List SolverOutput → ArbiterOutput
  rebuttalReply : SolverOutput → List SolverOutput → Option RebuttalFields
  consensusReply : List SolverOutput → ℕ → Option ConsensusParsed

/-- The dictionary returned by a successful `run_single`
(orchestrator.py lines 142-149), together with trace fields.
`selected_model_id`, `ranking` and `arbiter_final_answer` are the fields
of `arbiter_current` before the orchestrator overwrites its final answer
and decision mode; `rebuttal_invoked` and `consensus_invoked` record
whether the rebuttal round ran and whether the consensus branch was
entered (i.e. `synthesize` was called). -/
structure RunSingleResult where
  task_id : String
  selected_model_id : String
  ranking : List ArbiterRanking
  arbiter_final_answer : String
  decision_mode : String
  used_candidates : List String
  final_answer : String
  disagreement_rate : ℚ
  round_number : ℕ
  rebuttal_invoked : Bool
  consensus_invoked : Bool
deriving DecidableEq, Repr

/-- The top-two arbiter score gap, defined when the ranking has at least
two entries (orchestrator.py lines 89-90). -/
def topTwoGap : List ArbiterRanking → Option ℚ
  | r0 :: r1 :: _ => some (r0.score - r1.score)
  | _ => none

/-- The consensus check of `run_single` (orchestrator.py lines 84-115):
entered only when the ranking has at least two entries and the top-two
score gap is below epsilon; inside, a failing `synthesize` is caught and
the hard-select triple kept (the `except` on lines 109-110).  Returns
((decision_mode, used_candidates, final_answer), branch-entered). -/
def consensusStep (consensusReply : List SolverOutput → ℕ → Option ConsensusParsed)
    (candidates_current : List SolverOutput) (arbiter_current : ArbiterOutput)
    (consensus_topk : ℕ) (epsilon : ℚ) : (String × List String × String) × Bool :=
  let hard : String × List String × String :=
    ("hard_select", [arbiter_current.selected_model_id], arbiter_current.final_answer)
  match arbiter_current.ranking with
  | r0 :: r1 :: _ =>
      if r0.score - r1.score < epsilon then
        let top_k := min consensus_topk candidates_current.length
        let topIds := (arbiter_current.ranking.take top_k).map (fun r => r.model_id)
        let top_models :=
          (candidates_current.filter (fun c => topIds.contains c.model_id)).map
            (fun c => c.model_id)
        let top_candidates :=
          candidates_current.filter (fun c => top_models.contains c.model_id)
        match ConsensusSynthesizer.synthesize consensusReply top_candidates top_k with
        | some res => (("consensus_top" ++ toString top_k, res.sources, res.final_answer), true)
        | none => (hard, true)
      else (hard, false)
  | _ => (hard, false)

/-- The body of `MultiLLMOrchestrator.run_single` (orchestrator.py lines
33-149) past the point where the candidate list is known non-empty.
Model-memory updates and run-record writing (lines 117-140) are on-disk
side effects carrying no decision data and are omitted.  The arbiter is
re-queried on the post-rebuttal candidate set exactly as in lines 80-81;
since the candidate set determines the oracle's answer, the initial
`arbiter.rank` call of line 62 coincides with `o.arbiter` on the
round-1 candidates. -/
def run_single_decision (o : Oracles) (task_id : String) (consensus_topk : ℕ)
    (epsilon : ℚ) (enable_rebuttal : Bool) (disagreement_threshold : ℚ) :
    RunSingleResult :=
  let candidates_r1 := o.poolCandidates
  let disagreement_r1 := disagreementRate candidates_r1
  let doRebuttal := enable_rebuttal && decide (disagreement_threshold ≤ disagreement_r1)
  let candidates_current :=
    if doRebuttal then RebuttalRound.run o.rebuttalReply task_id candidates_r1
    else candidates_r1
  let arbiter_current := o.arbiter candidates_current
  let disagreement_rate := disagreementRate candidates_current
  let round_number := if doRebuttal then 2 else 1
  let step3 :=
    consensusStep o.consensusReply candidates_current arbiter_current consensus_topk epsilon
  { task_id := task_id
    selected_model_id := arbiter_current.selected_model_id
    ranking := arbiter_current.ranking
    arbiter_final_answer := arbiter_current.final_answer
    decision_mode := step3.1.1
    used_candidates := step3.1.2.1
    final_answer := step3.1.2.2
    disagreement_rate := disagreement_rate
    round_number := round_number
    rebuttal_invoked := doRebuttal
    consensus_invoked := step3.2 }

/-- `MultiLLMOrchestrator.run_single`.  With an empty candidate set the
source divides by zero at line 57 (`unique_answers / len(candidates_r1)`),
raising an uncaught `ZeroDivisionError`; otherwise the run completes with
the decision of `run_single_decision`. -/
def MultiLLMOrchestrator.run_single (o : Oracles) (task_id : String)
    (consensus_topk : ℕ) (epsilon : ℚ) (enable_rebuttal : Bool)
    (disagreement_threshold : ℚ) : Except PyErr RunSingleResult :=
  if o.poolCandidates.length = 0 then .error .zeroDivision
  else .ok (run_single_decision o task_id consensus_topk epsilon enable_rebuttal
    disagreement_threshold)

/-- Project a run's result to the summary stored in `results_per_run`
(orchestrator.py lines 175-179). -/
def RunSingleResult.summary (r : RunSingleResult) : RunSummary :=
  { decision_mode := r.decision_mode
    used_candidates := r.used_candidates
    final_answer := r.final_answer }

/-- The `for i in range(repeats)` loop of `run_multi` (orchestrator.py
lines 166-179): each iteration runs `run_single` (a failure propagates) and
appends the run's summary.  `os i` gives the oracle behaviour of run `i`
(the workers are non-deterministic across runs). -/
def runMultiLoop (os : ℕ → Oracles) (task_id : String) (consensus_topk : ℕ)
    (epsilon : ℚ) (enable_rebuttal : Bool) :
    List ℕ → Except PyErr (List RunSummary)
  | [] => .ok []
  | i :: rest =>
    match MultiLLMOrchestrator.run_single (os i) task_id consensus_topk epsilon
      enable_rebuttal (55/100) with
    | .error e => .error e
    | .ok r =>
      match runMultiLoop os task_id consensus_topk epsilon enable_rebuttal rest with
      | .error e => .error e
      | .ok rs => .ok (r.summary :: rs)

/-- The z-score for 95% confidence used by both Wilson implementations. -/
noncomputable def zval : ℝ := 1.96

/-- The Wilson score interval exactly as the specification states it:
with p-hat = successes/n and z = 1.96,
center = (p-hat + z^2/2n) / (1 + z^2/n),
spread = z*sqrt((p-hat*(1-p-hat) + z^2/4n)/n) / (1 + z^2/n),
interval = [clamp(center-spread,0,1), clamp(center+spread,0,1)],
and (0,0) for zero trials. -/
noncomputable def wilson_spec (successes trials : ℕ) : ℝ × ℝ :=
  if trials = 0 then (0, 0)
  else
    let n : ℝ := trials
    let p : ℝ := successes / n
    let center := (p + zval ^ 2 / (2 * n)) / (1 + zval ^ 2 / n)
    let spread := zval * Real.sqrt ((p * (1 - p) + zval ^ 2 / (4 * n)) / n) / (1 + zval ^ 2 / n)
    (max 0 (center - spread), min 1 (center + spread))

/-- `WilsonCI.calculate` (stability.py lines 12-31).  The `confidence`
parameter is present in the source but unused: the source hard-codes
`z = 1.96`. -/
noncomputable def WilsonCI.calculate (successes trials : ℕ) (confidence : ℚ) : ℝ × ℝ :=
  if trials = 0 then (0, 0)
  else
    let z : ℝ := 1.96
    let t : ℝ := trials
    let p_hat : ℝ := successes / t
    let denominator := 1 + z ^ 2 / t
    let centre_adjusted := (p_hat + z ^ 2 / (2 * t)) / denominator
    let adjusted_sd := Real.sqrt ((p_hat * (1 - p_hat) + z ^ 2 / (4 * t)) / t) / denominator
    (max 0 (centre_adjusted - z * adjusted_sd), min 1 (centre_adjusted + z * adjusted_sd))

/-- `EarlyStopper._wilson_ci` (early_stopping.py lines 62-94);
`z` is 1.96 for the default 95% confidence and 1.645 otherwise. -/
noncomputable def EarlyStopper.wilson_ci (successes total : ℕ) (confidence : ℚ) : ℝ × ℝ :=
  if total = 0 then (0, 0)
  else
    let z : ℝ := if confidence = 95/100 then 1.96 else 1.645
    let t : ℝ := total
    let p : ℝ := successes / t
    let denominator := 1 + z * z / t
    let center := p + z * z / (2 * t)
    let spread := z * Real.sqrt ((p * (1 - p) + z * z / (4 * t)) / t)
    (max 0 ((center - spread) / denominator), min 1 ((center + spread) / denominator))

/-- Python's `round(q, 3)` on an exact rational.  (Python rounds ties to
even; Mathlib's `round` rounds ties up.  The two differ only on exact
half-thousandths, which no statement below touches.) -/
def round3q (q : ℚ) : ℚ := ((round (q * 1000) : ℤ) : ℚ) / 1000

/-- Python's `round(x, 3)` on a real, with the same tie caveat as `round3q`. -/
noncomputable def round3r (x : ℝ) : ℝ := ((round (x * 1000) : ℤ) : ℝ) / 1000

/-- Multiplicity of `x` in `l` (the count a `collections.Counter` stores). -/
def countOccurrences (l : List String) (x : String) : ℕ :=
  (l.filter fun y => y = x).length

/-- The distinct values of `l` in first-seen order: the key order of a
`collections.Counter` built from `l`. -/
def firstSeenDistinct (l : List String) : List String :=
  l.foldl (fun acc x => if x ∈ acc then acc else acc ++ [x]) []

/-- `Counter(l).most_common(1)[0]`: the value with the highest
multiplicity, ties broken by first-seen order (`most_common` sorts
stably by descending count over insertion order).  `("", 0)` is junk
for the empty list, on which the source never calls it. -/
def mostCommon (l : List String) : String × ℕ :=
  (firstSeenDistinct l).foldl
    (fun best x => if best.2 < countOccurrences l x then (x, countOccurrences l x) else best)
    ("", 0)

/-- The dictionary returned by `StabilityAnalyzer.analyze`
(stability.py lines 39-78).  `majority_mode` is `none` exactly in the
zero-runs branch, which in the source also omits the `total_runs` key
(modelled as 0 here). -/
structure StabilityOutput where
  majority_rate : ℚ
  ci_lower : ℝ
  ci_upper : ℝ
  majority_mode : Option String
  mode_distribution : List (String × ℕ)
  total_runs : ℕ

/-- `StabilityAnalyzer.analyze` (stability.py lines 39-78). -/
noncomputable def StabilityAnalyzer.analyze (results_per_run : List RunSummary) :
    StabilityOutput :=
  if results_per_run.length = 0 then
    { majority_rate := 0, ci_lower := 0, ci_upper := 0, majority_mode := none,
      mode_distribution := [], total_runs := 0 }
  else
    let modes := results_per_run.map fun r => r.decision_mode
    let mc := mostCommon modes
    let majority_rate : ℚ := (mc.2 : ℚ) / (results_per_run.length : ℚ)
    let ci := WilsonCI.calculate mc.2 results_per_run.length (95/100)
    { majority_rate := round3q majority_rate
      ci_lower := round3r ci.1
      ci_upper := round3r ci.2
      majority_mode := some mc.1
      mode_distribution := (firstSeenDistinct modes).map fun m => (m, countOccurrences modes m)
      total_runs := results_per_run.length }

/-- The final dictionary of `run_multi` (orchestrator.py lines 186-200);
the echoed `config` sub-dictionary is omitted, the run summaries are kept
as a trace. -/
structure MultiRunResult where
  task_id : String
  final_answer : String
  decision_mode : String
  used_candidates : List String
  stability : StabilityOutput
  results_per_run : List RunSummary

/-- `MultiLLMOrchestrator.run_multi` (orchestrator.py lines 151-208):
run `run_single` exactly `repeats` times (`run_single` is called without
a disagreement threshold, so its default 0.55 applies), then analyze
stability over the collected summaries and report the last run's answer.
`results_per_run[-1]` on line 184 raises `IndexError` when `repeats = 0`. -/
noncomputable def MultiLLMOrchestrator.run_multi (os : ℕ → Oracles) (task_id : String)
    (repeats consensus_topk : ℕ) (epsilon : ℚ) (enable_rebuttal : Bool) :
    Except PyErr MultiRunResult :=
  match runMultiLoop os task_id consensus_topk epsilon enable_rebuttal
    (List.range repeats) with
  | .error e => .error e
  | .ok results_per_run =>
    match results_per_run.getLast? with
    | none => .error .indexError
    | some final_result =>
      .ok { task_id := task_id
            final_answer := final_result.final_answer
            decision_mode := final_result.decision_mode
            used_candidates := final_result.used_candidates
            stability := StabilityAnalyzer.analyze results_per_run
            results_per_run := results_per_run }

/-- `EarlyStoppingConfig` (early_stopping.py lines 32-39); the source's
defaults are (3, 0.85, 0.8, 2, True). -/
structure EarlyStoppingConfig where
  min_runs : ℕ
  confidence_threshold : ℝ
  convergence_threshold : ℚ
  stability_window : ℕ
  enable_adaptive : Bool

/-- The state of an `EarlyStopper` (early_stopping.py lines 50-54). -/
structure EarlyStopperState where
  config : EarlyStoppingConfig
  run_history : List String
  stability_streak : ℕ
  last_dominant : Option String

/-- A fresh `EarlyStopper` (constructor plus `reset`). -/
def EarlyStopper.init (config : EarlyStoppingConfig) : EarlyStopperState :=
  { config := config, run_history := [], stability_streak := 0, last_dominant := none }

/-- `EarlyStopper._get_answer_signature` (early_stopping.py lines 96-103):
first 200 characters, lowercased, whitespace-stripped on both ends; the
empty string for a falsy answer.  Expressed on the character sequence
(`answer[:200].lower().strip()` over ASCII). -/
def getAnswerSignature (answer : String) : String :=
  if answer = "" then "" else
    String.mk (((((answer.data.take 200).map Char.toLower).dropWhile
      Char.isWhitespace).reverse.dropWhile Char.isWhitespace).reverse)

/-- `StoppingDecision` (early_stopping.py lines 18-29).  The numeric
suffixes the source interpolates into `reason` (for example the formatted
confidence bound) are elided; the constant prefix of each message is kept. -/
structure StoppingDecision where
  should_stop : Bool
  reason : String
  current_run : ℕ
  total_planned_runs : ℕ
  convergence_score : ℚ
  ci_lower : ℝ
  ci_upper : ℝ
  dominant_answer : String
  dominant_count : ℕ
  saved_runs : ℤ

open Classical

/-- The stopping-condition chain of `EarlyStopper.record_run`
(early_stopping.py lines 137-158), evaluated in the source's fixed order:
minimum-runs check, then the Wilson-lower-bound confidence test, then
stable convergence together with the stability streak, then the adaptive
rule (5 or more runs and 80% convergence).  The source's adaptive branch
is nested (`elif enable_adaptive and current_run >= 5:` with an inner
convergence test that otherwise falls through with the defaults
`(False, "Continuing runs")` untouched); the flattened conjunction below
is the same function.  `Classical` is opened for the real-valued
threshold comparison. -/
noncomputable def stopVerdict (cfg : EarlyStoppingConfig) (current_run : ℕ)
    (ci_lower : ℝ) (convergence : ℚ) (stability_streak : ℕ) : Bool × String :=
  if current_run < cfg.min_runs then
    (false, "Minimum runs not reached (" ++ toString current_run ++ "/" ++
      toString cfg.min_runs ++ ")")
  else if cfg.confidence_threshold ≤ ci_lower then
    (true, "High confidence achieved")
  else if cfg.convergence_threshold ≤ convergence ∧
      cfg.stability_window ≤ stability_streak then
    (true, "Stable convergence")
  else if cfg.enable_adaptive = true ∧ 5 ≤ current_run ∧ 8/10 ≤ convergence then
    (true, "Adaptive stop")
  else
    (false, "Continuing runs")

/-- `EarlyStopper.record_run` (early_stopping.py lines 105-170), returning
the updated stopper state and the decision. -/
noncomputable def EarlyStopper.record_run (s : EarlyStopperState) (answer : String) :
    EarlyStopperState × StoppingDecision :=
  let signature := getAnswerSignature answer
  let history := s.run_history ++ [signature]
  let current_run := history.length
  let mc := mostCommon history
  let convergence : ℚ := (mc.2 : ℚ) / (current_run : ℚ)
  let ci := EarlyStopper.wilson_ci mc.2 current_run (95/100)
  let stability_streak :=
    if some mc.1 = s.last_dominant then s.stability_streak + 1 else 1
  let verdict : Bool × String :=
    stopVerdict s.config current_run ci.1 convergence stability_streak
  ({ config := s.config, run_history := history, stability_streak := stability_streak,
     last_dominant := some mc.1 },
   { should_stop := verdict.1, reason := verdict.2, current_run := current_run,
     total_planned_runs := 0, convergence_score := convergence, ci_lower := ci.1,
     ci_upper := ci.2, dominant_answer := mc.1, dominant_count := mc.2, saved_runs := 0 })

/-- `AdaptiveRunManager` (early_stopping.py lines 190-211). -/
structure AdaptiveRunManager where
  max_runs : ℕ
  min_runs : ℕ
  target_confidence : ℝ
  stopper : EarlyStopperState

/-- The `AdaptiveRunManager` constructor; the inner stopper config takes
the source defaults `convergence_threshold = 0.8`, `stability_window = 2`
and `enable_adaptive = True`. -/
def AdaptiveRunManager.init (max_runs min_runs : ℕ) (target_confidence : ℝ) :
    AdaptiveRunManager :=
  { max_runs := max_runs, min_runs := min_runs, target_confidence := target_confidence,
    stopper := EarlyStopper.init
      { min_runs := min_runs, confidence_threshold := target_confidence,
        convergence_threshold := 8/10, stability_window := 2, enable_adaptive := true } }

/-- `AdaptiveRunManager.should_continue` (early_stopping.py lines 217-249),
returning the updated manager, the continue flag and the decision. -/
noncomputable def AdaptiveRunManager.should_continue (m : AdaptiveRunManager)
    (answer : String) (planned_total : ℕ) :
    AdaptiveRunManager × Bool × StoppingDecision :=
  let step := EarlyStopper.record_run m.stopper answer
  let decision := { step.2 with total_planned_runs := planned_total }
  let current := decision.current_run
  let updated : AdaptiveRunManager := { m with stopper := step.1 }
  if current < m.min_runs then (updated, true, decision)
  else if m.max_runs ≤ current then
    (updated, false,
     { decision with
       should_stop := true
       reason := "Maximum runs reached (" ++ toString m.max_runs ++ ")" })
  else if decision.should_stop then
    (updated, false,
     { decision with saved_runs := (planned_total : ℤ) - (current : ℤ) })
  else (updated, true, decision)

/-! Concrete fixtures used by counterexamples and witnesses. -/

/-- A candidate answering "x". -/
def solA : SolverOutput :=
  { model_id := "solver_01", task_id := "t1", final_answer := "x", confidence := 9/10,
    assumptions := [], risks := [], evidence := [], self_checks := [], latency_ms := 0 }

/-- A second candidate with the same answer "x". -/
def solB : SolverOutput :=
  { model_id := "solver_02", task_id := "t1", final_answer := "x", confidence := 8/10,
    assumptions := [], risks := [], evidence := [], self_checks := [], latency_ms := 0 }

/-- A candidate with a different answer "y". -/
def solC : SolverOutput :=
  { model_id := "solver_03", task_id := "t1", final_answer := "y", confidence := 8/10,
    assumptions := [], risks := [], evidence := [], self_checks := [], latency_ms := 0 }

/-- An arbiter output with a single-entry ranking selecting `solver_01`
with final answer "a". -/
def arbFix : ArbiterOutput :=
  { task_id := "t1", selected_model_id := "solver_01",
    ranking := [{ model_id := "solver_01", score := 9/10 }],
    final_answer := "a", arbiter_notes := [], decision_mode := "hard_select",
    used_candidates := ["solver_01"] }

/-- An arbiter output whose top two scores are 0.91 and 0.85 (gap 0.06). -/
def arbNear : ArbiterOutput :=
  { task_id := "t1", selected_model_id := "solver_01",
    ranking := [{ model_id := "solver_01", score := 91/100 },
                { model_id := "solver_02", score := 85/100 },
                { model_id := "solver_03", score := 70/100 }],
    final_answer := "x", arbiter_notes := [], decision_mode := "hard_select",
    used_candidates := ["solver_01"] }

/-- An oracle bundle: one candidate, a fixed arbiter answer "a", and all
rebuttal and consensus calls failing. -/
def oracleFix : Oracles :=
  { poolCandidates := [solA], arbiter := fun _ => arbFix,
    rebuttalReply := fun _ _ => none, consensusReply := fun _ _ => none }

/-- An oracle bundle with three candidates and a near-tie arbiter,
all rebuttal and consensus calls failing. -/
def oracleNear : Oracles :=
  { poolCandidates := [solA, solB, solC], arbiter := fun _ => arbNear,
    rebuttalReply := fun _ _ => none, consensusReply := fun _ _ => none }

/-- A run summary with decision mode `hard_select`. -/
def hsRun : RunSummary :=
  { decision_mode := "hard_select", used_candidates := ["solver_01"], final_answer := "x" }

/-- The default `EarlyStoppingConfig` (3, 0.85, 0.8, 2, True). -/
noncomputable def esCfgDefault : EarlyStoppingConfig :=
  { min_runs := 3, confidence_threshold := 85/100, convergence_threshold := 8/10,
    stability_window := 2, enable_adaptive := true }

/-- A stopper state after two identical runs "a". -/
noncomputable def stTwoA : EarlyStopperState :=
  { config := esCfgDefault, run_history := ["a", "a"], stability_streak := 2,
    last_dominant := some "a" }

/-- A stopper state after 21 identical runs "a". -/
noncomputable def stManyA : EarlyStopperState :=
  { config := esCfgDefault, run_history := List.replicate 21 "a", stability_streak := 21,
    last_dominant := some "a" }

/-- A stopper state whose next run "a" makes the dominant answer flip,
with four of the five signatures agreeing. -/
noncomputable def stFlip : EarlyStopperState :=
  { config := esCfgDefault, run_history := ["b", "a", "a", "a"], stability_streak := 5,
    last_dominant := some "b" }

/-- A stopper state on which a third, fresh answer keeps every rule off. -/
noncomputable def stMixed : EarlyStopperState :=
  { config := esCfgDefault, run_history := ["a", "b"], stability_streak := 1,
    last_dominant := some "a" }

/-- The default manager (max 10, min 3, target confidence 0.85). -/
noncomputable def managerFix : AdaptiveRunManager := AdaptiveRunManager.init 10 3 (85/100)

/-- A manager whose stopper has already recorded nine runs. -/
noncomputable def managerNine : AdaptiveRunManager :=
  { max_runs := 10, min_runs := 3, target_confidence := 85/100,
    stopper := { config := esCfgDefault, run_history := List.replicate 9 "a",
                 stability_streak := 9, last_dominant := some "a" } }

/-- The JSON object holding exactly the six fields the specification
lists for the structured solver contract, with valid values. -/
def sixFieldObj : List (String × JVal) :=
  [("final_answer", .str "x"), ("confidence", .num (1/2)),
   ("assumptions", .arr []), ("risks", .arr []),
   ("evidence", .arr []), ("self_checks", .arr [])]

/-- The stopper after recording the answers "a","a","b","a","c" in order,
starting from a fresh default stopper, paired with the fifth decision. -/
noncomputable def stopperAfterFive : EarlyStopperState × StoppingDecision :=
  EarlyStopper.record_run (EarlyStopper.record_run (EarlyStopper.record_run
    (EarlyStopper.record_run (EarlyStopper.record_run (EarlyStopper.init esCfgDefault)
      "a").1 "a").1 "b").1 "a").1 "c"

/-- The manager state after the default manager has seen two runs
answering "a". -/
noncomputable def managerTwoA : AdaptiveRunManager :=
  { max_runs := 10, min_runs := 3, target_confidence := 85/100, stopper := stTwoA }

/-! Helper lemmas. -/

theorem dedup_of_all_eq {α : Type} [DecidableEq α] (a : α) :
    ∀ l : List α, l ≠ [] → (∀ x ∈ l, x = a) → l.dedup = [a] := by
  intro l
  induction l with
  | nil => intro h; exact absurd rfl h
  | cons x xs ih =>
    intro _ hall
    have hx : x = a := hall x (List.mem_cons_self _ _)
    cases xs with
    | nil => simp [hx]
    | cons y ys =>
      have hxs : ∀ z ∈ y :: ys, z = a := fun z hz => hall z (List.mem_cons_of_mem _ hz)
      have ihe : (y :: ys).dedup = [a] := ih (by simp) hxs
      have hmem : x ∈ y :: ys := by
        have hy : y = a := hxs y (List.mem_cons_self _ _)
        rw [hx, ← hy]
        exact List.mem_cons_self _ _
      rw [List.dedup_cons_of_mem hmem, ihe]

theorem all_isString_of_map_str (l : List String) :
    ((l.map JVal.str).all JVal.isString) = true := by
  induction l with
  | nil => rfl
  | cons x xs ih => simp [JVal.isString, ih]

/-- C3 (corrected): the disagreement rate of `run_single` equals
(number of distinct final-answer strings) / (number of candidates); on a
non-empty candidate set whose final answers are all textually identical it
equals `1 / n` (not 0), and it equals 1 when the answers are pairwise
distinct. -/
theorem C3_disagreement_rate_amended (cs : List SolverOutput) (hne : cs ≠ []) :
    disagreementRate cs =
      (((cs.map fun c => c.final_answer).dedup.length : ℚ) / (cs.length : ℚ)) ∧
    ((∀ c ∈ cs, ∀ c2 ∈ cs, c.final_answer = c2.final_answer) →
      disagreementRate cs = 1 / (cs.length : ℚ)) ∧
    ((cs.map fun c => c.final_answer).Nodup → disagreementRate cs = 1) := by
  refine ⟨rfl, ?_, ?_⟩
  · intro hall
    obtain ⟨c0, hc0⟩ := List.exists_mem_of_ne_nil cs hne
    have h1 : (cs.map fun c => c.final_answer).dedup = [c0.final_answer] := by
      apply dedup_of_all_eq
      · simpa using hne
      · intro x hx
        obtain ⟨c, hc, hxc⟩ := List.mem_map.mp hx
        rw [← hxc]
        exact hall c hc c0 hc0
    unfold disagreementRate
    rw [h1]
    simp
  · intro hnd
    unfold disagreementRate
    rw [List.dedup_eq_self.mpr hnd, List.length_map]
    have hlen0 : cs.length ≠ 0 := fun h => hne (List.length_eq_zero.mp h)
    have hlen : (cs.length : ℚ) ≠ 0 := Nat.cast_ne_zero.mpr hlen0
    field_simp

/-- C3 witness: two candidates with the identical answer "x" realise the
all-identical case of the amended statement, with rate `1/2`. -/
theorem C3_amended_witness :
    ([solA, solB] : List SolverOutput) ≠ [] ∧
    disagreementRate [solA, solB] = 1 / (([solA, solB] : List SolverOutput).length : ℚ) :=
  ⟨by simp, (C3_disagreement_rate_amended [solA, solB] (by simp)).2.1 (by decide)⟩

/-- C3 counterexample: with two candidates whose final answers are both
"x" the disagreement rate is `1/2`, not 0 as the claim states. -/
theorem C3_counterexample :
    solA.final_answer = solB.final_answer ∧
    disagreementRate [solA, solB] = 1/2 ∧ disagreementRate [solA, solB] ≠ 0 := by
  have hd : (List.map (fun c => c.final_answer) [solA, solB]).dedup = ["x"] := by
    show (["x", "x"] : List String).dedup = ["x"]
    rw [List.dedup_cons_of_mem (List.mem_singleton.mpr rfl),
      List.dedup_cons_of_not_mem (List.not_mem_nil _), List.dedup_nil]
  refine ⟨rfl, ?_, ?_⟩ <;>
    · unfold disagreementRate
      rw [hd]
      norm_num

/-- C9 (corrected): `SOLVER_SCHEMA` requires eight fields — `model_id` and
`task_id` in addition to the six the claim lists.  Validation succeeds on
every object consisting of exactly those eight fields with valid values,
fails whenever any field's key lies outside the schema's property set
(`additionalProperties: False`), and requires every one of the eight keys
to be present. -/
theorem C9_validate_solver_amended :
    (∀ (mid tid ans : String) (conf : ℚ), 0 ≤ conf → conf ≤ 1 →
      ∀ (assumptions risks evidence self_checks : List String),
        validate_solver_json
          (mkSolverObj mid tid ans conf assumptions risks evidence self_checks) = true) ∧
    (∀ fields : List (String × JVal), (∃ kv ∈ fields, kv.1 ∉ solverRequired) →
      validate_solver_json fields = false) ∧
    (∀ fields : List (String × JVal), validate_solver_json fields = true →
      ∀ k ∈ solverRequired, (fields.any fun kv => kv.1 = k) = true) := by
  refine ⟨?_, ?_, ?_⟩
  · intro mid tid ans conf h0 h1 assumptions risks evidence self_checks
    simp [validate_solver_json, mkSolverObj, solverRequired, solverPropertyCheck,
      JVal.isString, JVal.isNumber01, JVal.isStringArray, all_isString_of_map_str,
      h0, h1]
  · intro fields ⟨kv, hmem, hout⟩
    have hcheck : solverPropertyCheck kv.1 kv.2 = false := by
      simp only [solverRequired, List.mem_cons, List.not_mem_nil, or_false] at hout
      push_neg at hout
      simp [solverPropertyCheck, hout.1, hout.2.1, hout.2.2.1, hout.2.2.2.1,
        hout.2.2.2.2.1, hout.2.2.2.2.2.1, hout.2.2.2.2.2.2]
    have hall : (fields.all fun kv => solverPropertyCheck kv.1 kv.2) = false := by
      rw [List.all_eq_false]
      exact ⟨kv, hmem, by simp [hcheck]⟩
    simp [validate_solver_json, hall]
  · intro fields hv k hk
    have := (Bool.and_eq_true _ _).mp hv
    exact List.all_eq_true.mp this.1 k hk

/-- C9 witness: the eight-field object with confidence 1/2 validates, and
an object carrying the extra key "extra" is rejected. -/
theorem C9_amended_witness :
    ((0 : ℚ) ≤ 1/2 ∧ (1/2 : ℚ) ≤ 1 ∧
      validate_solver_json (mkSolverObj "m" "t" "x" (1/2) [] [] [] []) = true) ∧
    validate_solver_json [("model_id", JVal.str "m"), ("extra", JVal.null)] = false :=
  ⟨⟨by norm_num, by norm_num,
    C9_validate_solver_amended.1 "m" "t" "x" (1/2) (by norm_num) (by norm_num) [] [] [] []⟩,
   C9_validate_solver_amended.2.1 _ ⟨("extra", JVal.null), by simp, by decide⟩⟩

/-- C9 counterexample: the object with exactly the six fields the claim
lists (all with valid values) is rejected by `validate_solver_json`,
because the schema also requires `model_id` and `task_id`. -/
theorem C9_counterexample :
    (sixFieldObj.map fun kv => kv.1) =
      ["final_answer", "confidence", "assumptions", "risks", "evidence", "self_checks"] ∧
    validate_solver_json sixFieldObj = false :=
  ⟨rfl, by decide⟩

/-- C6 (confirmed): `RebuttalRound.run` returns exactly one output
candidate per input candidate, positionally preserving the worker
(`model_id`), and whenever a worker's rebuttal call fails or its response
is invalid (`reply ... = none`) the output entry at that position is that
worker's original pre-rebuttal candidate, unchanged. -/
theorem C6_rebuttal_preserves_workers
    (reply : SolverOutput → List SolverOutput → Option RebuttalFields)
    (task_id : String) (all_outputs : List SolverOutput) :
    (RebuttalRound.run reply task_id all_outputs).length = all_outputs.length ∧
    (∀ i : ℕ, ((RebuttalRound.run reply task_id all_outputs)[i]?.map fun c => c.model_id) =
      (all_outputs[i]?.map fun c => c.model_id)) ∧
    (∀ i : ℕ, ∀ own : SolverOutput, all_outputs[i]? = some own →
      reply own (all_outputs.filter fun o => o.model_id ≠ own.model_id) = none →
      (RebuttalRound.run reply task_id all_outputs)[i]? = some own) := by
  refine ⟨List.length_map _ _, ?_, ?_⟩
  · intro i
    unfold RebuttalRound.run
    rw [List.getElem?_map]
    cases h : all_outputs[i]? with
    | none => rfl
    | some own =>
      simp only [Option.map_some']
      cases hr : reply own (all_outputs.filter fun o => o.model_id ≠ own.model_id) <;>
        simp [hr]
  · intro i own h hr
    unfold RebuttalRound.run
    rw [List.getElem?_map, h]
    simp only [ne_eq, decide_not] at hr
    simp [hr]

/-- C6 witness: with a single worker whose rebuttal call fails, the output
set entry at position 0 is exactly the prior-round candidate. -/
theorem C6_witness :
    (([solA] : List SolverOutput)[0]? = some solA) ∧
    (RebuttalRound.run (fun _ _ => none) "t1" [solA])[0]? = some solA :=
  ⟨rfl, (C6_rebuttal_preserves_workers (fun _ _ => none) "t1" [solA]).2.2 0 solA rfl rfl⟩



theorem run_single_ok (o : Oracles) (task_id : String) (consensus_topk : ℕ)
    (epsilon : ℚ) (enable_rebuttal : Bool) (disagreement_threshold : ℚ)
    (hne : o.poolCandidates ≠ []) :
    MultiLLMOrchestrator.run_single o task_id consensus_topk epsilon enable_rebuttal
      disagreement_threshold =
    .ok (run_single_decision o task_id consensus_topk epsilon enable_rebuttal
      disagreement_threshold) := by
  unfold MultiLLMOrchestrator.run_single
  rw [if_neg]
  exact fun h => hne (List.length_eq_zero.mp h)

theorem consensusStep_invoked_iff
    (reply : List SolverOutput → ℕ → Option ConsensusParsed)
    (cands : List SolverOutput) (arb : ArbiterOutput) (k : ℕ) (ε : ℚ) :
    ((consensusStep reply cands arb k ε).2 = true ↔
      ∃ g, topTwoGap arb.ranking = some g ∧ g < ε) := by
  unfold consensusStep topTwoGap
  rcases h : arb.ranking with _ | ⟨r0, _ | ⟨r1, rest⟩⟩ <;> dsimp only
  · simp
  · simp
  · split_ifs with hg
    · refine iff_of_true ?_ ⟨r0.score - r1.score, rfl, hg⟩
      split <;> rfl
    · simp [hg]

theorem consensusStep_failure
    (reply : List SolverOutput → ℕ → Option ConsensusParsed)
    (cands : List SolverOutput) (arb : ArbiterOutput) (k : ℕ) (ε : ℚ)
    (hfail : ∀ tc j, reply tc j = none) :
    (consensusStep reply cands arb k ε).1 =
      ("hard_select", [arb.selected_model_id], arb.final_answer) := by
  unfold consensusStep
  rcases h : arb.ranking with _ | ⟨r0, _ | ⟨r1, rest⟩⟩ <;> dsimp only
  split_ifs with hg
  · unfold ConsensusSynthesizer.synthesize
    rw [hfail]
  · rfl

/-- C4 (confirmed): in a single run with rebuttal enabled (the default),
the rebuttal round is invoked iff the round-1 disagreement rate reaches the
configured threshold, and the consensus synthesizer is invoked iff the
current ranking carries a top-two gap and that gap is below epsilon
(with fewer than two ranking entries the consensus branch never runs). -/
theorem C4_escalation_iff (o : Oracles) (task_id : String) (consensus_topk : ℕ)
    (epsilon disagreement_threshold : ℚ) (hne : o.poolCandidates ≠ []) :
    ∃ res, MultiLLMOrchestrator.run_single o task_id consensus_topk epsilon true
      disagreement_threshold = .ok res ∧
    (res.rebuttal_invoked = true ↔
      disagreement_threshold ≤ disagreementRate o.poolCandidates) ∧
    (∀ g : ℚ, topTwoGap res.ranking = some g → (res.consensus_invoked = true ↔ g < epsilon)) ∧
    (topTwoGap res.ranking = none → res.consensus_invoked = false) := by
  refine ⟨_, run_single_ok o task_id consensus_topk epsilon true disagreement_threshold hne,
    ?_, ?_, ?_⟩
  · show (true && decide (disagreement_threshold ≤ disagreementRate o.poolCandidates)) = true ↔ _
    simp
  · intro g hg
    have hiff := consensusStep_invoked_iff o.consensusReply
      (if (true && decide (disagreement_threshold ≤ disagreementRate o.poolCandidates)) then
        RebuttalRound.run o.rebuttalReply task_id o.poolCandidates else o.poolCandidates)
      (o.arbiter
        (if (true && decide (disagreement_threshold ≤ disagreementRate o.poolCandidates)) then
          RebuttalRound.run o.rebuttalReply task_id o.poolCandidates else o.poolCandidates))
      consensus_topk epsilon
    constructor
    · intro hinv
      obtain ⟨g2, hg2, hlt⟩ := hiff.mp hinv
      have : some g = some g2 := hg ▸ hg2
      cases this
      exact hlt
    · intro hlt
      exact hiff.mpr ⟨g, hg, hlt⟩
  · intro hnone
    have hiff := consensusStep_invoked_iff o.consensusReply
      (if (true && decide (disagreement_threshold ≤ disagreementRate o.poolCandidates)) then
        RebuttalRound.run o.rebuttalReply task_id o.poolCandidates else o.poolCandidates)
      (o.arbiter
        (if (true && decide (disagreement_threshold ≤ disagreementRate o.poolCandidates)) then
          RebuttalRound.run o.rebuttalReply task_id o.poolCandidates else o.poolCandidates))
      consensus_topk epsilon
    by_contra hb
    have hinv : (run_single_decision o task_id consensus_topk epsilon true
        disagreement_threshold).consensus_invoked = true := by
      cases hcase : (run_single_decision o task_id consensus_topk epsilon true
          disagreement_threshold).consensus_invoked
      · exact absurd hcase hb
      · rfl
    obtain ⟨g2, hg2, _⟩ := hiff.mp hinv
    have hnone2 : topTwoGap
        (o.arbiter
          (if (true && decide (disagreement_threshold ≤ disagreementRate o.poolCandidates)) then
            RebuttalRound.run o.rebuttalReply task_id o.poolCandidates
          else o.poolCandidates)).ranking = none := hnone
    rw [hnone2] at hg2
    cases hg2

/-- C4 witness: a three-candidate pool (answers "x","x","y") with arbiter
scores 0.91/0.85/0.70, epsilon 0.07 and threshold 0.55 instantiates the
theorem at its concrete hypothesis. -/
theorem C4_witness :
    oracleNear.poolCandidates ≠ [] ∧
    (∃ res, MultiLLMOrchestrator.run_single oracleNear "t1" 3 (7/100) true
      (55/100) = .ok res ∧
    (res.rebuttal_invoked = true ↔
      (55/100 : ℚ) ≤ disagreementRate oracleNear.poolCandidates) ∧
    (∀ g : ℚ, topTwoGap res.ranking = some g →
      (res.consensus_invoked = true ↔ g < 7/100)) ∧
    (topTwoGap res.ranking = none → res.consensus_invoked = false)) :=
  ⟨by simp [oracleNear], C4_escalation_iff oracleNear "t1" 3 (7/100) (55/100)
    (by simp [oracleNear])⟩

/-- C7 (confirmed): whenever every consensus call fails, a single run still
returns successfully and its decision is the hard-select result already
computed: decision mode `hard_select`, used candidates exactly the
arbiter's selected model, and the arbiter's final answer; the consensus
error never propagates to the caller. -/
theorem C7_consensus_failure_absorbed (o : Oracles) (task_id : String)
    (consensus_topk : ℕ) (epsilon : ℚ) (enable_rebuttal : Bool)
    (disagreement_threshold : ℚ) (hne : o.poolCandidates ≠ [])
    (hfail : ∀ tc j, o.consensusReply tc j = none) :
    ∃ res, MultiLLMOrchestrator.run_single o task_id consensus_topk epsilon
      enable_rebuttal disagreement_threshold = .ok res ∧
    res.decision_mode = "hard_select" ∧
    res.used_candidates = [res.selected_model_id] ∧
    res.final_answer = res.arbiter_final_answer := by
  refine ⟨_, run_single_ok o task_id consensus_topk epsilon enable_rebuttal
    disagreement_threshold hne, ?_, ?_, ?_⟩ <;>
  · have h := consensusStep_failure o.consensusReply
      (if (enable_rebuttal && decide (disagreement_threshold ≤ disagreementRate o.poolCandidates)) then
        RebuttalRound.run o.rebuttalReply task_id o.poolCandidates else o.poolCandidates)
      (o.arbiter
        (if (enable_rebuttal && decide (disagreement_threshold ≤ disagreementRate o.poolCandidates)) then
          RebuttalRound.run o.rebuttalReply task_id o.poolCandidates else o.poolCandidates))
      consensus_topk epsilon hfail
    have h1 := congrArg (fun p => p.1) h
    have h2 := congrArg (fun p => p.2.1) h
    have h3 := congrArg (fun p => p.2.2) h
    first
      | exact h1
      | exact h2
      | exact h3

/-- C7 witness: a run whose near-tie triggers the consensus branch while
every consensus call fails still ends `hard_select`. -/
theorem C7_witness :
    oracleNear.poolCandidates ≠ [] ∧
    (∃ res, MultiLLMOrchestrator.run_single oracleNear "t1" 3 (7/100) true
      (55/100) = .ok res ∧
    res.decision_mode = "hard_select" ∧
    res.used_candidates = [res.selected_model_id] ∧
    res.final_answer = res.arbiter_final_answer) :=
  ⟨by simp [oracleNear], C7_consensus_failure_absorbed oracleNear "t1" 3 (7/100) true
    (55/100) (by simp [oracleNear]) (fun _ _ => rfl)⟩

/-- C10 (confirmed): when every worker call fails, `run_parallel` returns
the empty candidate list, on which `run_single` hits the unguarded
division by zero of the disagreement-rate computation and raises; with at
least one candidate it always returns a decision. -/
theorem C10_empty_pool_division (call : SolverSpec → Option SolverOutput)
    (roster : List SolverSpec) (arb : List SolverOutput → ArbiterOutput)
    (reb : SolverOutput → List SolverOutput → Option RebuttalFields)
    (cons : List SolverOutput → ℕ → Option ConsensusParsed) (task_id : String)
    (k : ℕ) (ε : ℚ) (er : Bool) (dt : ℚ) :
    ((∀ s, call s = none) →
      SolverPool.run_parallel call roster = [] ∧
      MultiLLMOrchestrator.run_single
        { poolCandidates := SolverPool.run_parallel call roster, arbiter := arb,
          rebuttalReply := reb, consensusReply := cons } task_id k ε er dt =
        .error .zeroDivision) ∧
    (∀ cands : List SolverOutput, cands ≠ [] →
      ∃ res, MultiLLMOrchestrator.run_single
        { poolCandidates := cands, arbiter := arb, rebuttalReply := reb,
          consensusReply := cons } task_id k ε er dt = .ok res) := by
  constructor
  · intro hfail
    have hempty : SolverPool.run_parallel call roster = [] := by
      unfold SolverPool.run_parallel
      exact List.filterMap_eq_nil_iff.mpr fun s _ => hfail s
    refine ⟨hempty, ?_⟩
    unfold MultiLLMOrchestrator.run_single
    rw [if_pos]
    show (SolverPool.run_parallel call roster).length = 0
    rw [hempty]
    rfl
  · intro cands hne
    exact ⟨_, run_single_ok _ task_id k ε er dt hne⟩

/-- C10 witness: a one-worker roster whose call always fails yields an
empty pool and the `ZeroDivisionError`. -/
theorem C10_witness :
    ((fun _ : SolverSpec => (none : Option SolverOutput)) { model_id := "m", temperature := 0 }
      = none) ∧
    MultiLLMOrchestrator.run_single
      { poolCandidates :=
          SolverPool.run_parallel (fun _ => none) [{ model_id := "m", temperature := 0 }],
        arbiter := fun _ => arbFix, rebuttalReply := fun _ _ => none,
        consensusReply := fun _ _ => none } "t1" 3 (7/100) true (55/100) =
      .error .zeroDivision :=
  ⟨rfl,
   ((C10_empty_pool_division (fun _ => none) [{ model_id := "m", temperature := 0 }]
      (fun _ => arbFix) (fun _ _ => none) (fun _ _ => none) "t1" 3 (7/100) true
      (55/100)).1 (fun _ => rfl)).2⟩

theorem zval_pos : (0:ℝ) < zval := by unfold zval; norm_num

theorem wilson_calculate_eq_spec (s n : ℕ) (conf : ℚ) :
    WilsonCI.calculate s n conf = wilson_spec s n := by
  unfold WilsonCI.calculate wilson_spec zval
  by_cases h : n = 0
  · rw [if_pos h, if_pos h]
  · rw [if_neg h, if_neg h]
    dsimp only
    simp only [Prod.mk.injEq]
    constructor
    · congr 1
      ring
    · congr 1
      ring

theorem wilson_early_eq_spec (s n : ℕ) :
    EarlyStopper.wilson_ci s n (95/100) = wilson_spec s n := by
  unfold EarlyStopper.wilson_ci wilson_spec zval
  by_cases h : n = 0
  · rw [if_pos h, if_pos h]
  · rw [if_neg h, if_neg h, if_pos rfl]
    dsimp only
    rw [show (1.96:ℝ) * 1.96 = (1.96:ℝ) ^ 2 from by ring]
    simp only [Prod.mk.injEq]
    constructor
    · congr 1
      ring
    · congr 1
      ring

theorem wilson_spec_zero (s : ℕ) : wilson_spec s 0 = (0, 0) := by
  unfold wilson_spec
  rw [if_pos rfl]

theorem wilson_spread_ge (p n : ℝ) (hp0 : 0 ≤ p) (hp1 : p ≤ 1) (hn : 0 < n) :
    zval ^ 2 * (2 * p - 1) / (2 * n) ≤
      zval * Real.sqrt ((p * (1 - p) + zval ^ 2 / (4 * n)) / n) := by
  have hz : (0:ℝ) < zval := zval_pos
  have hn' : n ≠ 0 := ne_of_gt hn
  have hpq : 0 ≤ p * (1 - p) := mul_nonneg hp0 (by linarith)
  have hA : 0 ≤ (p * (1 - p) + zval ^ 2 / (4 * n)) / n := by
    apply div_nonneg _ hn.le
    have : 0 ≤ zval ^ 2 / (4 * n) := by positivity
    linarith
  rcases le_or_lt (2 * p - 1) 0 with hle | hgt
  · have hL : zval ^ 2 * (2 * p - 1) / (2 * n) ≤ 0 :=
      div_nonpos_of_nonpos_of_nonneg
        (mul_nonpos_of_nonneg_of_nonpos (by positivity) hle) (by linarith)
    exact hL.trans (mul_nonneg hz.le (Real.sqrt_nonneg _))
  · have hx : 0 ≤ zval * (2 * p - 1) / (2 * n) :=
      div_nonneg (mul_nonneg hz.le (by linarith)) (by linarith)
    have hiden : (p * (1 - p) + zval ^ 2 / (4 * n)) / n -
        (zval * (2 * p - 1) / (2 * n)) ^ 2 =
        p * (1 - p) * (n + zval ^ 2) / n ^ 2 := by
      field_simp
      ring
    have hsq : (zval * (2 * p - 1) / (2 * n)) ^ 2 ≤
        (p * (1 - p) + zval ^ 2 / (4 * n)) / n := by
      have hnn : 0 ≤ p * (1 - p) * (n + zval ^ 2) / n ^ 2 := by
        apply div_nonneg (mul_nonneg hpq (by positivity)) (by positivity)
      linarith [hiden]
    have hle2 : zval * (2 * p - 1) / (2 * n) ≤
        Real.sqrt ((p * (1 - p) + zval ^ 2 / (4 * n)) / n) :=
      (Real.le_sqrt hx hA).mpr hsq
    calc zval ^ 2 * (2 * p - 1) / (2 * n)
        = zval * (zval * (2 * p - 1) / (2 * n)) := by ring
      _ ≤ zval * Real.sqrt ((p * (1 - p) + zval ^ 2 / (4 * n)) / n) :=
          mul_le_mul_of_nonneg_left hle2 hz.le

theorem wilson_core_bounds (p n : ℝ) (hp0 : 0 ≤ p) (hp1 : p ≤ 1) (hn : 0 < n) :
    ((p + zval ^ 2 / (2 * n)) / (1 + zval ^ 2 / n) -
      zval * Real.sqrt ((p * (1 - p) + zval ^ 2 / (4 * n)) / n) / (1 + zval ^ 2 / n) ≤ p) ∧
    (p ≤ (p + zval ^ 2 / (2 * n)) / (1 + zval ^ 2 / n) +
      zval * Real.sqrt ((p * (1 - p) + zval ^ 2 / (4 * n)) / n) / (1 + zval ^ 2 / n)) := by
  have hz : (0:ℝ) < zval := zval_pos
  have hn' : n ≠ 0 := ne_of_gt hn
  have hd : (0:ℝ) < 1 + zval ^ 2 / n := by positivity
  set S := zval * Real.sqrt ((p * (1 - p) + zval ^ 2 / (4 * n)) / n) with hS
  have hk2 : zval ^ 2 * (2 * p - 1) / (2 * n) ≤ S := wilson_spread_ge p n hp0 hp1 hn
  have hk1 : zval ^ 2 * (1 - 2 * p) / (2 * n) ≤ S := by
    have h := wilson_spread_ge (1 - p) n (by linarith) (by linarith) hn
    rw [show ((1:ℝ) - p) * (1 - (1 - p)) = p * (1 - p) from by ring] at h
    rw [show (2:ℝ) * (1 - p) - 1 = 1 - 2 * p from by ring] at h
    exact h
  have hk1' : zval ^ 2 * (1 - 2 * p) ≤ S * (2 * n) :=
    (div_le_iff (by linarith)).mp hk1
  have hk2' : zval ^ 2 * (2 * p - 1) ≤ S * (2 * n) :=
    (div_le_iff (by linarith)).mp hk2
  constructor
  · rw [div_sub_div_same, div_le_iff hd, ← sub_nonneg]
    have hexp : p * (1 + zval ^ 2 / n) - (p + zval ^ 2 / (2 * n) - S) =
        (S * (2 * n) - zval ^ 2 * (1 - 2 * p)) / (2 * n) := by
      field_simp
      ring
    rw [hexp]
    apply div_nonneg (by linarith) (by linarith)
  · rw [div_add_div_same, le_div_iff hd, ← sub_nonneg]
    have hexp : p + zval ^ 2 / (2 * n) + S - p * (1 + zval ^ 2 / n) =
        (S * (2 * n) - zval ^ 2 * (2 * p - 1)) / (2 * n) := by
      field_simp
      ring
    rw [hexp]
    apply div_nonneg (by linarith) (by linarith)

theorem wilson_spec_bounds (s n : ℕ) (hsn : s ≤ n) (hn : 0 < n) :
    0 ≤ (wilson_spec s n).1 ∧
    (wilson_spec s n).1 ≤ (s:ℝ) / (n:ℝ) ∧
    ((s:ℝ) / (n:ℝ)) ≤ (wilson_spec s n).2 ∧
    (wilson_spec s n).2 ≤ 1 := by
  have hn0 : n ≠ 0 := Nat.pos_iff_ne_zero.mp hn
  have hnr : (0:ℝ) < (n:ℝ) := by exact_mod_cast hn
  have hp0 : (0:ℝ) ≤ (s:ℝ) / (n:ℝ) := by positivity
  have hp1 : (s:ℝ) / (n:ℝ) ≤ 1 := by
    rw [div_le_one hnr]
    exact_mod_cast hsn
  have hcore := wilson_core_bounds ((s:ℝ) / (n:ℝ)) (n:ℝ) hp0 hp1 hnr
  unfold wilson_spec
  rw [if_neg hn0]
  dsimp only
  refine ⟨le_max_left _ _, ?_, ?_, min_le_left _ _⟩
  · exact max_le hp0 hcore.1
  · exact le_min hp1 hcore.2

theorem wilson_spec_all_success (n : ℕ) (hn : 0 < n) :
    (wilson_spec n n).1 = (n:ℝ) / ((n:ℝ) + zval ^ 2) := by
  have hn0 : n ≠ 0 := Nat.pos_iff_ne_zero.mp hn
  have hnr : (0:ℝ) < (n:ℝ) := by exact_mod_cast hn
  have hz : (0:ℝ) < zval := zval_pos
  unfold wilson_spec
  rw [if_neg hn0]
  dsimp only
  rw [div_self (ne_of_gt hnr)]
  have hsqrtarg : ((1:ℝ) * (1 - 1) + zval ^ 2 / (4 * (n:ℝ))) / (n:ℝ) =
      (zval / (2 * (n:ℝ))) ^ 2 := by
    field_simp
    ring
  rw [hsqrtarg, Real.sqrt_sq (by positivity)]
  have hd : (0:ℝ) < 1 + zval ^ 2 / (n:ℝ) := by positivity
  have hval : (1 + zval ^ 2 / (2 * (n:ℝ))) / (1 + zval ^ 2 / (n:ℝ)) -
      zval * (zval / (2 * (n:ℝ))) / (1 + zval ^ 2 / (n:ℝ)) =
      (n:ℝ) / ((n:ℝ) + zval ^ 2) := by
    rw [div_sub_div_same, div_eq_div_iff (ne_of_gt hd) (by positivity)]
    field_simp
    ring
  rw [hval, max_eq_right (by positivity)]

/-- C5 (confirmed): both Wilson implementations compute exactly the
specified interval with z = 1.96 (the `confidence` parameter of
`WilsonCI.calculate` being ignored by the source, and 0.95 selecting
z = 1.96 in `EarlyStopper._wilson_ci`); zero trials give (0,0); with at
least one trial both bounds lie in [0,1] and bracket the observed rate. -/
theorem C5_wilson_interval (s n : ℕ) (conf : ℚ) (hsn : s ≤ n) :
    (WilsonCI.calculate s n conf = wilson_spec s n ∧
     EarlyStopper.wilson_ci s n (95/100) = wilson_spec s n) ∧
    (n = 0 → wilson_spec s n = (0, 0)) ∧
    (0 < n →
      0 ≤ (wilson_spec s n).1 ∧
      (wilson_spec s n).1 ≤ (s:ℝ) / (n:ℝ) ∧
      ((s:ℝ) / (n:ℝ)) ≤ (wilson_spec s n).2 ∧
      (wilson_spec s n).2 ≤ 1 ∧
      (wilson_spec s n).1 ≤ 1 ∧
      0 ≤ (wilson_spec s n).2) := by
  refine ⟨⟨wilson_calculate_eq_spec s n conf, wilson_early_eq_spec s n⟩, ?_, ?_⟩
  · intro h
    subst h
    exact wilson_spec_zero s
  · intro hn
    have hnr : (0:ℝ) < (n:ℝ) := by exact_mod_cast hn
    have hp0 : (0:ℝ) ≤ (s:ℝ) / (n:ℝ) := by positivity
    have hp1 : (s:ℝ) / (n:ℝ) ≤ 1 := by
      rw [div_le_one hnr]
      exact_mod_cast hsn
    obtain ⟨h1, h2, h3, h4⟩ := wilson_spec_bounds s n hsn hn
    exact ⟨h1, h2, h3, h4, h2.trans hp1, hp0.trans h3⟩

/-- C5 witness: the interval at (successes, trials) = (1, 2). -/
theorem C5_witness :
    (1 ≤ 2) ∧
    ((WilsonCI.calculate 1 2 (95/100) = wilson_spec 1 2 ∧
      EarlyStopper.wilson_ci 1 2 (95/100) = wilson_spec 1 2) ∧
     ((2:ℕ) = 0 → wilson_spec 1 2 = (0, 0)) ∧
     ((0:ℕ) < 2 →
       0 ≤ (wilson_spec 1 2).1 ∧
       (wilson_spec 1 2).1 ≤ ((1:ℕ):ℝ) / ((2:ℕ):ℝ) ∧
       (((1:ℕ):ℝ) / ((2:ℕ):ℝ)) ≤ (wilson_spec 1 2).2 ∧
       (wilson_spec 1 2).2 ≤ 1 ∧
       (wilson_spec 1 2).1 ≤ 1 ∧
       0 ≤ (wilson_spec 1 2).2)) :=
  ⟨by decide, C5_wilson_interval 1 2 (95/100) (by decide)⟩

theorem firstSeenDistinct_aux (a : String) :
    ∀ (l : List String) (acc : List String), (∀ x ∈ l, x = a) → a ∈ acc →
      l.foldl (fun acc x => if x ∈ acc then acc else acc ++ [x]) acc = acc := by
  intro l
  induction l with
  | nil => intro acc _ _; rfl
  | cons x xs ih =>
    intro acc hall hacc
    have hx : x = a := hall x (List.mem_cons_self _ _)
    have hmem : x ∈ acc := hx ▸ hacc
    simp only [List.foldl_cons, if_pos hmem]
    exact ih acc (fun z hz => hall z (List.mem_cons_of_mem _ hz)) hacc

theorem firstSeenDistinct_all_eq (a : String) (l : List String) (hne : l ≠ [])
    (hall : ∀ x ∈ l, x = a) : firstSeenDistinct l = [a] := by
  cases l with
  | nil => exact absurd rfl hne
  | cons x xs =>
    have hx : x = a := hall x (List.mem_cons_self _ _)
    unfold firstSeenDistinct
    simp only [List.foldl_cons, List.not_mem_nil, if_neg (List.not_mem_nil x),
      List.nil_append]
    rw [hx]
    exact firstSeenDistinct_aux a xs [a]
      (fun z hz => hall z (List.mem_cons_of_mem _ hz)) (List.mem_singleton.mpr rfl)

theorem countOccurrences_all_eq (a : String) (l : List String)
    (hall : ∀ x ∈ l, x = a) : countOccurrences l a = l.length := by
  unfold countOccurrences
  rw [List.filter_eq_self.mpr]
  intro x hx
  simp [hall x hx]

theorem mostCommon_all_eq (a : String) (l : List String) (hne : l ≠ [])
    (hall : ∀ x ∈ l, x = a) : mostCommon l = (a, l.length) := by
  unfold mostCommon
  rw [firstSeenDistinct_all_eq a l hne hall]
  have hcount : countOccurrences l a = l.length := countOccurrences_all_eq a l hall
  have hpos : 0 < l.length := List.length_pos.mpr hne
  simp only [List.foldl_cons, List.foldl_nil, hcount]
  rw [if_pos hpos]

theorem round3q_one : round3q 1 = 1 := by
  unfold round3q
  norm_num [round_eq]

theorem round3r_bounds (x : ℝ) : x - 1/2000 ≤ round3r x ∧ round3r x ≤ x + 1/2000 := by
  have h := abs_sub_round (x * 1000)
  rw [abs_le] at h
  unfold round3r
  constructor <;> [linarith [h.1]; linarith [h.2]]

theorem analyze_all_same (results : List RunSummary) (mode : String)
    (hne : results ≠ []) (hall : ∀ r ∈ results, r.decision_mode = mode) :
    (StabilityAnalyzer.analyze results).majority_rate = 1 ∧
    (StabilityAnalyzer.analyze results).majority_mode = some mode ∧
    (StabilityAnalyzer.analyze results).ci_lower =
      round3r ((results.length : ℝ) / ((results.length : ℝ) + zval ^ 2)) := by
  have hlen0 : results.length ≠ 0 := fun h => hne (List.length_eq_zero.mp h)
  have hpos : 0 < results.length := Nat.pos_of_ne_zero hlen0
  have hmodes : ∀ x ∈ results.map (fun r => r.decision_mode), x = mode := by
    intro x hx
    obtain ⟨r, hr, hxr⟩ := List.mem_map.mp hx
    rw [← hxr]
    exact hall r hr
  have hmapne : results.map (fun r => r.decision_mode) ≠ [] := by
    simpa using hne
  have hmc : mostCommon (results.map fun r => r.decision_mode) = (mode, results.length) := by
    rw [mostCommon_all_eq mode _ hmapne hmodes, List.length_map]
  unfold StabilityAnalyzer.analyze
  rw [if_neg hlen0]
  dsimp only
  rw [hmc]
  dsimp only
  refine ⟨?_, rfl, ?_⟩
  · rw [div_self (by exact_mod_cast hlen0 : (results.length : ℚ) ≠ 0)]
    exact round3q_one
  · rw [wilson_calculate_eq_spec, wilson_spec_all_success _ hpos]

/-- C2 (corrected): over N runs whose decision-mode labels are all the
same the stability result reports majority rate 1.0 and that label as
majority mode, and for N at least 4 the reported Wilson lower bound
exceeds 0.5; at N = 3 the lower bound is below 0.5
(see `C2_counterexample`). -/
theorem C2_stability_unanimous_amended (results : List RunSummary) (mode : String)
    (hlen : 4 ≤ results.length) (hall : ∀ r ∈ results, r.decision_mode = mode) :
    (StabilityAnalyzer.analyze results).majority_rate = 1 ∧
    (StabilityAnalyzer.analyze results).majority_mode = some mode ∧
    1/2 < (StabilityAnalyzer.analyze results).ci_lower := by
  have hne : results ≠ [] := by
    intro h
    rw [h] at hlen
    exact absurd hlen (by decide)
  obtain ⟨h1, h2, h3⟩ := analyze_all_same results mode hne hall
  refine ⟨h1, h2, ?_⟩
  rw [h3]
  have hN4 : (4:ℝ) ≤ (results.length : ℝ) := by exact_mod_cast hlen
  have hNpos : (0:ℝ) < (results.length : ℝ) := by linarith
  have hx : (51:ℝ)/100 ≤ (results.length : ℝ) / ((results.length : ℝ) + zval ^ 2) := by
    rw [le_div_iff (by positivity)]
    unfold zval
    nlinarith
  have hr := (round3r_bounds ((results.length : ℝ) / ((results.length : ℝ) + zval ^ 2))).1
  linarith

/-- C2 counterexample: three runs all resolving to `hard_select` — a valid
instance of the claim's "every N ≥ 3" — have majority rate 1.0 but a
Wilson lower bound below 0.5, refuting the claimed strict bound. -/
theorem C2_counterexample :
    (StabilityAnalyzer.analyze [hsRun, hsRun, hsRun]).majority_rate = 1 ∧
    (StabilityAnalyzer.analyze [hsRun, hsRun, hsRun]).majority_mode = some "hard_select" ∧
    (StabilityAnalyzer.analyze [hsRun, hsRun, hsRun]).ci_lower < 1/2 := by
  have hall : ∀ r ∈ [hsRun, hsRun, hsRun], r.decision_mode = "hard_select" := by decide
  obtain ⟨h1, h2, h3⟩ := analyze_all_same [hsRun, hsRun, hsRun] "hard_select" (by simp) hall
  refine ⟨h1, h2, ?_⟩
  rw [h3]
  have hr := (round3r_bounds ((([hsRun, hsRun, hsRun].length : ℕ) : ℝ) /
    ((([hsRun, hsRun, hsRun].length : ℕ) : ℝ) + zval ^ 2))).2
  have hlen : (([hsRun, hsRun, hsRun].length : ℕ) : ℝ) = 3 := by norm_num
  rw [hlen] at hr ⊢
  have hval : (3:ℝ) / (3 + zval ^ 2) + 1/2000 < 1/2 := by
    unfold zval
    norm_num
  linarith

/-- C2 witness: four unanimous `hard_select` runs instantiate the amended
claim's hypotheses. -/
theorem C2_amended_witness :
    (4 ≤ ([hsRun, hsRun, hsRun, hsRun] : List RunSummary).length) ∧
    ((StabilityAnalyzer.analyze [hsRun, hsRun, hsRun, hsRun]).majority_rate = 1 ∧
     (StabilityAnalyzer.analyze [hsRun, hsRun, hsRun, hsRun]).majority_mode =
       some "hard_select" ∧
     1/2 < (StabilityAnalyzer.analyze [hsRun, hsRun, hsRun, hsRun]).ci_lower) :=
  ⟨by decide,
   C2_stability_unanimous_amended [hsRun, hsRun, hsRun, hsRun] "hard_select"
     (by decide) (by decide)⟩

theorem stopVerdict_min (cfg : EarlyStoppingConfig) (cur : ℕ) (ci : ℝ) (conv : ℚ)
    (streak : ℕ) (h : cur < cfg.min_runs) :
    stopVerdict cfg cur ci conv streak =
      (false, "Minimum runs not reached (" ++ toString cur ++ "/" ++
        toString cfg.min_runs ++ ")") := by
  unfold stopVerdict
  rw [if_pos h]

theorem stopVerdict_conf (cfg : EarlyStoppingConfig) (cur : ℕ) (ci : ℝ) (conv : ℚ)
    (streak : ℕ) (h1 : ¬ cur < cfg.min_runs) (h2 : cfg.confidence_threshold ≤ ci) :
    stopVerdict cfg cur ci conv streak = (true, "High confidence achieved") := by
  unfold stopVerdict
  rw [if_neg h1, if_pos h2]

theorem stopVerdict_stable (cfg : EarlyStoppingConfig) (cur : ℕ) (ci : ℝ) (conv : ℚ)
    (streak : ℕ) (h1 : ¬ cur < cfg.min_runs) (h2 : ¬ cfg.confidence_threshold ≤ ci)
    (h3 : cfg.convergence_threshold ≤ conv) (h4 : cfg.stability_window ≤ streak) :
    stopVerdict cfg cur ci conv streak = (true, "Stable convergence") := by
  unfold stopVerdict
  rw [if_neg h1, if_neg h2, if_pos ⟨h3, h4⟩]

theorem stopVerdict_adaptive (cfg : EarlyStoppingConfig) (cur : ℕ) (ci : ℝ) (conv : ℚ)
    (streak : ℕ) (h1 : ¬ cur < cfg.min_runs) (h2 : ¬ cfg.confidence_threshold ≤ ci)
    (h3 : ¬ (cfg.convergence_threshold ≤ conv ∧ cfg.stability_window ≤ streak))
    (h4 : cfg.enable_adaptive = true) (h5 : 5 ≤ cur) (h6 : 8/10 ≤ conv) :
    stopVerdict cfg cur ci conv streak = (true, "Adaptive stop") := by
  unfold stopVerdict
  rw [if_neg h1, if_neg h2, if_neg h3, if_pos ⟨h4, h5, h6⟩]

theorem stopVerdict_continue (cfg : EarlyStoppingConfig) (cur : ℕ) (ci : ℝ) (conv : ℚ)
    (streak : ℕ) (h1 : ¬ cur < cfg.min_runs) (h2 : ¬ cfg.confidence_threshold ≤ ci)
    (h3 : ¬ (cfg.convergence_threshold ≤ conv ∧ cfg.stability_window ≤ streak))
    (h4 : ¬ (cfg.enable_adaptive = true ∧ 5 ≤ cur ∧ 8/10 ≤ conv)) :
    stopVerdict cfg cur ci conv streak = (false, "Continuing runs") := by
  unfold stopVerdict
  rw [if_neg h1, if_neg h2, if_neg h3, if_neg h4]

theorem record_current_run (s : EarlyStopperState) (answer : String) :
    (EarlyStopper.record_run s answer).2.current_run = s.run_history.length + 1 := by
  show (s.run_history ++ [getAnswerSignature answer]).length = _
  rw [List.length_append, List.length_singleton]

theorem ci_lower_stTwoA : (EarlyStopper.record_run stTwoA "a").2.ci_lower < 85/100 := by
  show (EarlyStopper.wilson_ci
    (mostCommon (stTwoA.run_history ++ [getAnswerSignature "a"])).2
    (stTwoA.run_history ++ [getAnswerSignature "a"]).length (95/100)).1 < 85/100
  have hmc : (mostCommon (stTwoA.run_history ++ [getAnswerSignature "a"])).2 = 3 := by decide
  have hlen : (stTwoA.run_history ++ [getAnswerSignature "a"]).length = 3 := by decide
  rw [hmc, hlen, wilson_early_eq_spec, wilson_spec_all_success 3 (by norm_num)]
  unfold zval
  norm_num

theorem ci_lower_stManyA : (85:ℝ)/100 ≤ (EarlyStopper.record_run stManyA "a").2.ci_lower := by
  show (85:ℝ)/100 ≤ (EarlyStopper.wilson_ci
    (mostCommon (stManyA.run_history ++ [getAnswerSignature "a"])).2
    (stManyA.run_history ++ [getAnswerSignature "a"]).length (95/100)).1
  have hmc : (mostCommon (stManyA.run_history ++ [getAnswerSignature "a"])).2 = 22 := by decide
  have hlen : (stManyA.run_history ++ [getAnswerSignature "a"]).length = 22 := by decide
  rw [hmc, hlen, wilson_early_eq_spec, wilson_spec_all_success 22 (by norm_num)]
  unfold zval
  norm_num

theorem ci_lower_stFlip : (EarlyStopper.record_run stFlip "a").2.ci_lower < 85/100 := by
  show (EarlyStopper.wilson_ci
    (mostCommon (stFlip.run_history ++ [getAnswerSignature "a"])).2
    (stFlip.run_history ++ [getAnswerSignature "a"]).length (95/100)).1 < 85/100
  have hmc : (mostCommon (stFlip.run_history ++ [getAnswerSignature "a"])).2 = 4 := by decide
  have hlen : (stFlip.run_history ++ [getAnswerSignature "a"]).length = 5 := by decide
  rw [hmc, hlen, wilson_early_eq_spec]
  have hb := (wilson_spec_bounds 4 5 (by norm_num) (by norm_num)).2.1
  refine lt_of_le_of_lt hb ?_
  norm_num

theorem ci_lower_stMixed : (EarlyStopper.record_run stMixed "c").2.ci_lower < 85/100 := by
  show (EarlyStopper.wilson_ci
    (mostCommon (stMixed.run_history ++ [getAnswerSignature "c"])).2
    (stMixed.run_history ++ [getAnswerSignature "c"]).length (95/100)).1 < 85/100
  have hmc : (mostCommon (stMixed.run_history ++ [getAnswerSignature "c"])).2 = 1 := by decide
  have hlen : (stMixed.run_history ++ [getAnswerSignature "c"]).length = 3 := by decide
  rw [hmc, hlen, wilson_early_eq_spec]
  have hb := (wilson_spec_bounds 1 3 (by norm_num) (by norm_num)).2.1
  refine lt_of_le_of_lt hb ?_
  norm_num

/-- C8 (confirmed): the early stopper never stops while the recorded
history is shorter than `min_runs`; the adaptive run manager, once past
its floor, always stops at or above `max_runs` with the maximum-runs
reason; the stopping rules fire in the source's fixed order (confidence
bound first, then stable convergence, then the adaptive rule, else
continue); and the history "a","a","b","a","c" yields convergence 0.6
with dominant answer "a" counted 3 times. -/
theorem C8_early_stopping_rules :
    (∀ (s : EarlyStopperState) (answer : String),
      s.run_history.length + 1 < s.config.min_runs →
      (EarlyStopper.record_run s answer).2.should_stop = false) ∧
    (∀ (m : AdaptiveRunManager) (answer : String) (planned : ℕ),
      m.min_runs ≤ m.max_runs →
      m.max_runs ≤ m.stopper.run_history.length + 1 →
      (m.should_continue answer planned).2.1 = false ∧
      (m.should_continue answer planned).2.2.should_stop = true ∧
      (m.should_continue answer planned).2.2.reason =
        "Maximum runs reached (" ++ toString m.max_runs ++ ")") ∧
    (∀ (s : EarlyStopperState) (answer : String),
      s.config.min_runs ≤ s.run_history.length + 1 →
      s.config.confidence_threshold ≤ (EarlyStopper.record_run s answer).2.ci_lower →
      (EarlyStopper.record_run s answer).2.should_stop = true ∧
      (EarlyStopper.record_run s answer).2.reason = "High confidence achieved") ∧
    (∀ (s : EarlyStopperState) (answer : String),
      s.config.min_runs ≤ s.run_history.length + 1 →
      (EarlyStopper.record_run s answer).2.ci_lower < s.config.confidence_threshold →
      s.config.convergence_threshold ≤
        (EarlyStopper.record_run s answer).2.convergence_score →
      s.config.stability_window ≤ (EarlyStopper.record_run s answer).1.stability_streak →
      (EarlyStopper.record_run s answer).2.should_stop = true ∧
      (EarlyStopper.record_run s answer).2.reason = "Stable convergence") ∧
    (∀ (s : EarlyStopperState) (answer : String),
      s.config.min_runs ≤ s.run_history.length + 1 →
      (EarlyStopper.record_run s answer).2.ci_lower < s.config.confidence_threshold →
      ¬ (s.config.convergence_threshold ≤
            (EarlyStopper.record_run s answer).2.convergence_score ∧
          s.config.stability_window ≤
            (EarlyStopper.record_run s answer).1.stability_streak) →
      s.config.enable_adaptive = true →
      5 ≤ s.run_history.length + 1 →
      8/10 ≤ (EarlyStopper.record_run s answer).2.convergence_score →
      (EarlyStopper.record_run s answer).2.should_stop = true ∧
      (EarlyStopper.record_run s answer).2.reason = "Adaptive stop") ∧
    (∀ (s : EarlyStopperState) (answer : String),
      s.config.min_runs ≤ s.run_history.length + 1 →
      (EarlyStopper.record_run s answer).2.ci_lower < s.config.confidence_threshold →
      ¬ (s.config.convergence_threshold ≤
            (EarlyStopper.record_run s answer).2.convergence_score ∧
          s.config.stability_window ≤
            (EarlyStopper.record_run s answer).1.stability_streak) →
      ¬ (s.config.enable_adaptive = true ∧ 5 ≤ s.run_history.length + 1 ∧
          8/10 ≤ (EarlyStopper.record_run s answer).2.convergence_score) →
      (EarlyStopper.record_run s answer).2.should_stop = false ∧
      (EarlyStopper.record_run s answer).2.reason = "Continuing runs") ∧
    (stopperAfterFive.2.convergence_score = 3/5 ∧
     stopperAfterFive.2.dominant_count = 3 ∧
     stopperAfterFive.2.dominant_answer = "a" ∧
     stopperAfterFive.2.current_run = 5) := by
  have hlen : ∀ (s : EarlyStopperState) (answer : String),
      (s.run_history ++ [getAnswerSignature answer]).length = s.run_history.length + 1 := by
    intro s answer
    rw [List.length_append, List.length_singleton]
  refine ⟨?_, ?_, ?_, ?_, ?_, ?_, ?_⟩
  · intro s answer h
    have hcond : (s.run_history ++ [getAnswerSignature answer]).length < s.config.min_runs := by
      rw [hlen]
      exact h
    exact congrArg Prod.fst (stopVerdict_min s.config _ _ _ _ hcond)
  · intro m answer planned hminmax hcur
    have hc := record_current_run m.stopper answer
    unfold AdaptiveRunManager.should_continue
    dsimp only
    split_ifs with h1 h2
    · exfalso
      rw [hc] at h1
      omega
    · exact ⟨rfl, rfl, rfl⟩
    · exfalso
      rw [hc] at h2
      omega
    · exfalso
      rw [hc] at h2
      omega
  · intro s answer hmin hconf
    have hcond : ¬ (s.run_history ++ [getAnswerSignature answer]).length <
        s.config.min_runs := by
      rw [hlen]
      exact not_lt.mpr hmin
    have h := stopVerdict_conf s.config
      ((s.run_history ++ [getAnswerSignature answer]).length)
      ((EarlyStopper.record_run s answer).2.ci_lower)
      ((EarlyStopper.record_run s answer).2.convergence_score)
      ((EarlyStopper.record_run s answer).1.stability_streak) hcond hconf
    exact ⟨congrArg Prod.fst h, congrArg Prod.snd h⟩
  · intro s answer hmin hci hconv hstreak
    have hcond : ¬ (s.run_history ++ [getAnswerSignature answer]).length <
        s.config.min_runs := by
      rw [hlen]
      exact not_lt.mpr hmin
    have h := stopVerdict_stable s.config
      ((s.run_history ++ [getAnswerSignature answer]).length)
      ((EarlyStopper.record_run s answer).2.ci_lower)
      ((EarlyStopper.record_run s answer).2.convergence_score)
      ((EarlyStopper.record_run s answer).1.stability_streak) hcond
      (not_le.mpr hci) hconv hstreak
    exact ⟨congrArg Prod.fst h, congrArg Prod.snd h⟩
  · intro s answer hmin hci hnot hena h5 hconv
    have hcond : ¬ (s.run_history ++ [getAnswerSignature answer]).length <
        s.config.min_runs := by
      rw [hlen]
      exact not_lt.mpr hmin
    have h5' : 5 ≤ (s.run_history ++ [getAnswerSignature answer]).length := by
      rw [hlen]
      exact h5
    have h := stopVerdict_adaptive s.config
      ((s.run_history ++ [getAnswerSignature answer]).length)
      ((EarlyStopper.record_run s answer).2.ci_lower)
      ((EarlyStopper.record_run s answer).2.convergence_score)
      ((EarlyStopper.record_run s answer).1.stability_streak) hcond
      (not_le.mpr hci) hnot hena h5' hconv
    exact ⟨congrArg Prod.fst h, congrArg Prod.snd h⟩
  · intro s answer hmin hci hnot hnot4
    have hcond : ¬ (s.run_history ++ [getAnswerSignature answer]).length <
        s.config.min_runs := by
      rw [hlen]
      exact not_lt.mpr hmin
    have hnot4' : ¬ (s.config.enable_adaptive = true ∧
        5 ≤ (s.run_history ++ [getAnswerSignature answer]).length ∧
        8/10 ≤ (EarlyStopper.record_run s answer).2.convergence_score) := by
      rw [hlen]
      exact hnot4
    have h := stopVerdict_continue s.config
      ((s.run_history ++ [getAnswerSignature answer]).length)
      ((EarlyStopper.record_run s answer).2.ci_lower)
      ((EarlyStopper.record_run s answer).2.convergence_score)
      ((EarlyStopper.record_run s answer).1.stability_streak) hcond
      (not_le.mpr hci) hnot hnot4'
    exact ⟨congrArg Prod.fst h, congrArg Prod.snd h⟩
  · refine ⟨?_, by decide, by decide, by decide⟩
    have hconv : stopperAfterFive.2.convergence_score =
        (stopperAfterFive.2.dominant_count : ℚ) /
          (stopperAfterFive.2.current_run : ℚ) := rfl
    have hdc : stopperAfterFive.2.dominant_count = 3 := by decide
    have hcr : stopperAfterFive.2.current_run = 5 := by decide
    rw [hconv, hdc, hcr]
    norm_num

/-- C8 witness: concrete stopper states exercising every rule — a fresh
stopper (minimum-runs), a manager at its tenth run (maximum-runs), 22
identical answers (confidence rule), 3 identical answers (stable
convergence), a dominant-answer flip at 4/5 agreement (adaptive rule) and
three distinct answers (continue). -/
theorem C8_witness :
    ((EarlyStopper.init esCfgDefault).run_history.length + 1 < 3 ∧
     (EarlyStopper.record_run (EarlyStopper.init esCfgDefault) "a").2.should_stop = false) ∧
    ((managerNine.should_continue "a" 10).2.1 = false ∧
     (managerNine.should_continue "a" 10).2.2.reason =
       "Maximum runs reached (" ++ toString managerNine.max_runs ++ ")") ∧
    ((EarlyStopper.record_run stManyA "a").2.should_stop = true ∧
     (EarlyStopper.record_run stManyA "a").2.reason = "High confidence achieved") ∧
    ((EarlyStopper.record_run stTwoA "a").2.should_stop = true ∧
     (EarlyStopper.record_run stTwoA "a").2.reason = "Stable convergence") ∧
    ((EarlyStopper.record_run stFlip "a").2.should_stop = true ∧
     (EarlyStopper.record_run stFlip "a").2.reason = "Adaptive stop") ∧
    ((EarlyStopper.record_run stMixed "c").2.should_stop = false ∧
     (EarlyStopper.record_run stMixed "c").2.reason = "Continuing runs") := by
  obtain ⟨h1, h2, h3, h4, h5, h6, _⟩ := C8_early_stopping_rules
  refine ⟨⟨by decide, h1 _ "a" (by decide)⟩, ?_, ?_, ?_, ?_, ?_⟩
  · obtain ⟨ha, _, hc⟩ := h2 managerNine "a" 10 (by decide) (by decide)
    exact ⟨ha, hc⟩
  · exact h3 stManyA "a" (by decide) ci_lower_stManyA
  · refine h4 stTwoA "a" (by decide) ci_lower_stTwoA ?_ (by decide)
    show (8:ℚ)/10 ≤ (EarlyStopper.record_run stTwoA "a").2.convergence_score
    rw [(show (EarlyStopper.record_run stTwoA "a").2.convergence_score =
        ((EarlyStopper.record_run stTwoA "a").2.dominant_count : ℚ) /
          ((EarlyStopper.record_run stTwoA "a").2.current_run : ℚ) from rfl),
      (show (EarlyStopper.record_run stTwoA "a").2.dominant_count = 3 by decide),
      (show (EarlyStopper.record_run stTwoA "a").2.current_run = 3 by decide)]
    norm_num
  · refine h5 stFlip "a" (by decide) ci_lower_stFlip ?_ (by decide) (by decide) ?_
    · intro hc
      exact absurd hc.2 (by decide)
    · show (8:ℚ)/10 ≤ (EarlyStopper.record_run stFlip "a").2.convergence_score
      rw [(show (EarlyStopper.record_run stFlip "a").2.convergence_score =
          ((EarlyStopper.record_run stFlip "a").2.dominant_count : ℚ) /
            ((EarlyStopper.record_run stFlip "a").2.current_run : ℚ) from rfl),
        (show (EarlyStopper.record_run stFlip "a").2.dominant_count = 4 by decide),
        (show (EarlyStopper.record_run stFlip "a").2.current_run = 5 by decide)]
      norm_num
  · refine h6 stMixed "c" (by decide) ci_lower_stMixed ?_ ?_
    · intro hc
      have hq := hc.1
      rw [(show (EarlyStopper.record_run stMixed "c").2.convergence_score =
          ((EarlyStopper.record_run stMixed "c").2.dominant_count : ℚ) /
            ((EarlyStopper.record_run stMixed "c").2.current_run : ℚ) from rfl),
        (show (EarlyStopper.record_run stMixed "c").2.dominant_count = 1 by decide),
        (show (EarlyStopper.record_run stMixed "c").2.current_run = 3 by decide)] at hq
      have hq2 : (8:ℚ)/10 ≤ ((1:ℕ):ℚ) / ((3:ℕ):ℚ) := hq
      norm_num at hq2
    · intro hc
      exact absurd hc.2.1 (by decide)

theorem runMultiLoop_ok (os : ℕ → Oracles) (task_id : String) (k : ℕ) (ε : ℚ)
    (er : Bool) (hne : ∀ i, (os i).poolCandidates ≠ []) :
    ∀ l : List ℕ, ∃ rs, runMultiLoop os task_id k ε er l = .ok rs ∧
      rs.length = l.length := by
  intro l
  induction l with
  | nil => exact ⟨[], rfl, rfl⟩
  | cons i rest ih =>
    obtain ⟨rs, hrs, hlen⟩ := ih
    refine ⟨(run_single_decision (os i) task_id k ε er (55/100)).summary :: rs, ?_,
      by simp [hlen]⟩
    unfold runMultiLoop
    rw [run_single_ok (os i) task_id k ε er (55/100) (hne i), hrs]

/-- C1 (amended): the multi-run loop executes exactly the requested number
of runs — it never consults the Early Stopper, so no run history causes
fewer runs — and then computes the Stability Result over all of them. -/
theorem C1_run_multi_amended (os : ℕ → Oracles) (task_id : String)
    (repeats k : ℕ) (ε : ℚ) (er : Bool)
    (hne : ∀ i, (os i).poolCandidates ≠ []) (hrep : repeats ≠ 0) :
    ∃ m, MultiLLMOrchestrator.run_multi os task_id repeats k ε er = .ok m ∧
      m.results_per_run.length = repeats ∧
      m.stability = StabilityAnalyzer.analyze m.results_per_run := by
  obtain ⟨rs, hrs, hlen⟩ := runMultiLoop_ok os task_id k ε er hne (List.range repeats)
  have hlen' : rs.length = repeats := by rw [hlen, List.length_range]
  have hne2 : rs ≠ [] := by
    intro h
    rw [h] at hlen'
    exact hrep hlen'.symm
  unfold MultiLLMOrchestrator.run_multi
  rw [hrs]
  dsimp only
  rw [List.getLast?_eq_getLast rs hne2]
  exact ⟨_, rfl, hlen', rfl⟩

/-- C1 witness: five runs of a one-candidate oracle all succeed, so the
amended claim instantiates with exactly five executed runs. -/
theorem C1_amended_witness :
    oracleFix.poolCandidates ≠ [] ∧
    (∃ m, MultiLLMOrchestrator.run_multi (fun _ => oracleFix) "t1" 5 3 (7/100)
        false = .ok m ∧
      m.results_per_run.length = 5 ∧
      m.stability = StabilityAnalyzer.analyze m.results_per_run) :=
  ⟨by simp [oracleFix],
   C1_run_multi_amended (fun _ => oracleFix) "t1" 5 3 (7/100) false
     (fun _ => by simp [oracleFix]) (by decide)⟩

theorem record_run_stTwoA_stops :
    (EarlyStopper.record_run stTwoA "a").2.should_stop = true := by
  have hconv : (8:ℚ)/10 ≤ (EarlyStopper.record_run stTwoA "a").2.convergence_score := by
    rw [(show (EarlyStopper.record_run stTwoA "a").2.convergence_score =
        ((EarlyStopper.record_run stTwoA "a").2.dominant_count : ℚ) /
          ((EarlyStopper.record_run stTwoA "a").2.current_run : ℚ) from rfl),
      (show (EarlyStopper.record_run stTwoA "a").2.dominant_count = 3 by decide),
      (show (EarlyStopper.record_run stTwoA "a").2.current_run = 3 by decide)]
    norm_num
  have h := stopVerdict_stable stTwoA.config
    ((stTwoA.run_history ++ [getAnswerSignature "a"]).length)
    ((EarlyStopper.record_run stTwoA "a").2.ci_lower)
    ((EarlyStopper.record_run stTwoA "a").2.convergence_score)
    ((EarlyStopper.record_run stTwoA "a").1.stability_streak)
    (by decide) (not_le.mpr ci_lower_stTwoA) hconv (by decide)
  exact congrArg Prod.fst h

/-- C1 counterexample: with every run answering "a" and 5 requested
repeats, `run_multi` executes all 5 runs — never fewer — although the
Early Stopper, fed those same answers, already tells its manager to stop
at run 3 (the third `should_continue` returns `false`).  The multi-run
loop never consults the stopper, refuting the claimed early
termination. -/
theorem C1_counterexample :
    Except.map (fun m => m.results_per_run.length)
      (MultiLLMOrchestrator.run_multi (fun _ => oracleFix) "t1" 5 3 (7/100) false) =
      .ok 5 ∧
    (((managerFix.should_continue "a" 5).1.should_continue "a" 5).1.should_continue
      "a" 5).2.1 = false := by
  constructor
  · rfl
  · have hm2 : ((managerFix.should_continue "a" 5).1.should_continue "a" 5).1 =
        managerTwoA := rfl
    rw [hm2]
    unfold AdaptiveRunManager.should_continue
    dsimp only
    split_ifs with h1 h2 h3
    · exact absurd h1 (by decide)
    · rfl
    · rfl
    · exfalso
      apply h3
      show (EarlyStopper.record_run stTwoA "a").2.should_stop = true
      exact record_run_stTwoA_stops
